import Mathlib

/-!
Verification of the track-acquisition pipeline of `src/main.py`.

Definitions are shallow embeddings of the Python source. Pure helpers
(substring tests, track-id extraction, duration formatting, ID3 tag
computation) are translated directly. The stateful handlers
(`download_from_youtube`, `get_spotify_info`,
`search_and_download_from_youtube`, `download_command`,
`handle_message`) are embedded as functions over an explicit
`BotState` (an event trace plus the set of files on disk), with an
environment record describing the outcome of each external call
(yt-dlp extraction, Spotify lookup, HTTP cover fetch, Telegram send),
so that every `try`/`except` path of the source is an explicit branch.
-/

/-- Splits a character list at the first occurrence of `sep`, returning
the parts strictly before and strictly after it; `none` when `sep` does
not occur. This is the Python `s.split(sep)` behaviour restricted to
the first separator: `s.split(sep)[0]` is the first component and the
scan for further separators resumes after the match. -/
def splitFirst (sep : List Char) : List Char → Option (List Char × List Char)
  | [] => none
  | c :: cs =>
    if sep.isPrefixOf (c :: cs) then some ([], (c :: cs).drop sep.length)
    else match splitFirst sep cs with
         | some (pre, post) => some (c :: pre, post)
         | none => none

/-- Python `sub in s` substring test. -/
def containsL (l sub : List Char) : Bool := (splitFirst sub l).isSome

def trackMarker : List Char := "/track/".data

def qMark : List Char := "?".data

def ytMarker1 : List Char := "youtube.com".data

def ytMarker2 : List Char := "youtu.be".data

def spMarker : List Char := "spotify.com/track".data

/-- Whitespace for Python `str.split()` (no arguments). -/
def isSpaceC (c : Char) : Bool :=
  c = ' ' || c = '\t' || c = '\n' || c = '\r' || c = '\x0b' || c = '\x0c'

def notSpace (c : Char) : Bool := !(isSpaceC c)

/-- Python `text.split()`: maximal runs of non-whitespace characters
(split at every whitespace character, empty pieces discarded). -/
def wordsOf (l : List Char) : List (List Char) :=
  (l.splitOnP isSpaceC).filter (fun w => !w.isEmpty)

/-- Python `int(s)` on a digit string (`main.py` line 218 applies it to
the leading component of a release date); `none` models the
`ValueError` raised on a non-digit string. -/
def pyInt (s : List Char) : Option Nat :=
  if !s.isEmpty && s.all Char.isDigit then
    some (s.foldl (fun acc c => acc * 10 + (c.toNat - 48)) 0)
  else none

/-- Track-identifier extraction, `main.py` lines 195-196:
`url.split("/track/")[1].split("?")[0]`, guarded by
`if "/track/" in url`. Returns `none` when the marker is absent (the
code then replies with a validation message instead of extracting). -/
def extract_track_id (url : List Char) : Option (List Char) :=
  match splitFirst trackMarker url with
  | none => none
  | some (_, rest) =>
    let seg := match splitFirst trackMarker rest with
               | some (pre2, _) => pre2
               | none => rest
    some (match splitFirst qMark seg with
          | some (pre, _) => pre
          | none => seg)

/-- Python `f"{n:02d}"` for the seconds field (always below 60). -/
def two_digit (n : Nat) : String := if n < 10 then "0" ++ toString n else toString n

/-- Duration rendering, `main.py` line 209:
`f"{duration_ms//60000}:{(duration_ms//1000)%60:02d}"`. -/
def format_duration (duration_ms : Nat) : String :=
  toString (duration_ms / 60000) ++ ":" ++ two_digit ((duration_ms / 1000) % 60)

/-- The metadata dictionary passed to `add_id3_tags`; each field is
optional because Python `dict.get` is used with defaults. -/
structure TagMeta where
  title : Option String
  artist : Option String
  album : Option String
  album_artist : Option String
  cover_url : Option String
  year : Option Nat
  track_number : Option Nat
deriving DecidableEq

/-- The ID3 tag block written by `add_id3_tags` when it succeeds. -/
structure ID3Tag where
  title : String
  artist : String
  album : String
  album_artist : String
  recording_date : Option Nat
  track_num : Option Nat
  front_cover : Bool
deriving DecidableEq

/-- Outcomes of the external calls made inside `add_id3_tags`:
`loadOk` is `eyed3.load`/tag creation succeeding on a well-formed file,
`fetchResult` is the cover `requests.get` (`none` = the request raised,
`some code` = an HTTP response with that status), `saveOk` is
`audiofile.tag.save()` succeeding. -/
structure TagEnv where
  loadOk : Bool
  fetchResult : Option Nat
  saveOk : Bool
deriving DecidableEq

/-- The body of `add_id3_tags` (lines 157-183) before its `except`
handler: any failing step raises, modelled as `Except.error`. -/
def add_id3_tags_body (env : TagEnv) (m : TagMeta) : Except String ID3Tag :=
  if env.loadOk = false then Except.error "load failed"
  else
    let tag0 : ID3Tag := {
      title := m.title.getD "Unknown Title"
      artist := m.artist.getD "Unknown Artist"
      album := m.album.getD "Unknown Album"
      album_artist := m.album_artist.getD (m.artist.getD "Unknown Artist")
      recording_date := m.year
      track_num := m.track_number
      front_cover := false }
    let afterCover : Except String ID3Tag :=
      match m.cover_url with
      | some u =>
        if u ≠ "" then
          match env.fetchResult with
          | none => Except.error "cover request failed"
          | some status =>
            Except.ok (if status = 200 then { tag0 with front_cover := true } else tag0)
        else Except.ok tag0
      | none => Except.ok tag0
    match afterCover with
    | Except.error e => Except.error e
    | Except.ok tag1 =>
      if env.saveOk then Except.ok tag1 else Except.error "save failed"

/-- `add_id3_tags` (lines 154-187): the whole body sits in a
`try`/`except` that logs and swallows every exception, so the function
always returns; `some tag` is the tag block persisted on success,
`none` means an internal error was caught (file left untagged). -/
def add_id3_tags (env : TagEnv) (m : TagMeta) : Option ID3Tag :=
  match add_id3_tags_body env m with
  | Except.ok t => some t
  | Except.error _ => none

/-- Observable per-request effects: Telegram messages sent or edited,
and files written to / removed from the download directory. -/
inductive Msg where
  | statusCreate (sid : Nat) (text : String)
  | statusEdit (sid : Nat) (text : String)
  | replyText (text : String)
  | replyPhoto (url : String) (caption : String)
  | replyAudio (title : String)
  | tagOutcome (result : Option ID3Tag)
  | fileCreated (path : String)
deriving DecidableEq

/-- Chat-session state threaded through the handlers: the chronological
event trace, the files currently present in the download directory, and
the id the next `reply_text` status message will get. -/
structure BotState where
  events : List Msg
  files : List String
  nextStatusId : Nat
deriving DecidableEq

def emit (s : BotState) (m : Msg) : BotState := { s with events := s.events ++ [m] }

def createStatus (s : BotState) (text : String) : BotState :=
  { s with events := s.events ++ [Msg.statusCreate s.nextStatusId text],
           nextStatusId := s.nextStatusId + 1 }

def editStatus (s : BotState) (sid : Nat) (text : String) : BotState :=
  emit s (Msg.statusEdit sid text)

def createFile (s : BotState) (path : String) : BotState :=
  { s with events := s.events ++ [Msg.fileCreated path], files := s.files ++ [path] }

def removeFile (s : BotState) (path : String) : BotState :=
  { s with files := s.files.erase path }

def DOWNLOAD_DIR : String := "downloads"

/-- `main.py` line 135: `file_path = f"{DOWNLOAD_DIR}/{title}.mp3"` —
the artifact path is computed from the resolved title alone. -/
def file_path_for (title : String) : String := DOWNLOAD_DIR ++ "/" ++ title ++ ".mp3"

/-- Outcomes of the external calls made inside `download_from_youtube`:
`extractOk` is `ydl.extract_info(url, download=True)` succeeding,
`extractedTitle` is `info.get('title')` (`none` when the key is
absent), `sendOk` is `reply_audio` succeeding, `tagEnv` drives the
nested `add_id3_tags` call. -/
structure DlEnv where
  extractOk : Bool
  extractedTitle : Option String
  sendOk : Bool
  tagEnv : TagEnv
deriving DecidableEq

def dlInProgressText : String := "Downloading audio from YouTube..."

/-- The tail of `download_from_youtube` (lines 142-148): edit the status
message to the success notice, send the audio, then `os.remove`. A
failing send raises, and the `except` handler (lines 150-152) edits the
status message to an error notice; `os.remove` is in the `try` body, so
it does not run on that path. -/
def sendPhase (env : DlEnv) (s : BotState) (sid : Nat) (path title : String) : BotState :=
  let s3 := editStatus s sid ("Downloaded: " ++ title)
  if env.sendOk then
    removeFile (emit s3 (Msg.replyAudio title)) path
  else
    editStatus s3 sid "Error downloading audio: send failed"

/-- `download_from_youtube` (lines 114-152). A status message is
created first; the `try` body downloads to
`f"{DOWNLOAD_DIR}/{title}.mp3"`, optionally tags (errors swallowed
inside `add_id3_tags`), overrides the title from `metadata['title']`
(a raising dict access when the key is absent), edits the status and
sends the audio; every raise lands in the `except` handler which edits
the status message to an error notice and performs no cleanup. -/
def download_from_youtube (env : DlEnv) (metadata : Option TagMeta) (s : BotState) : BotState :=
  let sid := s.nextStatusId
  let s1 := createStatus s dlInProgressText
  if env.extractOk = false then
    editStatus s1 sid "Error downloading audio: download failed"
  else
    let title0 := env.extractedTitle.getD "Unknown Title"
    let path := file_path_for title0
    let s2 := createFile s1 path
    match metadata with
    | none => sendPhase env s2 sid path title0
    | some m =>
      let s3 := emit s2 (Msg.tagOutcome (add_id3_tags env.tagEnv m))
      match m.title with
      | none => editStatus s3 sid "Error downloading audio: missing title key"
      | some t => sendPhase env s3 sid path t

/-- Outcome of the search `extract_info(f"ytsearch:{query}",
download=False)` call in `search_and_download_from_youtube`:
`searchOk = false` models the call raising; `entries` is
`info.get('entries', [])`, each entry carrying its
`get('webpage_url')`. -/
structure SearchEnv where
  searchOk : Bool
  entries : List (Option String)
deriving DecidableEq

/-- `search_and_download_from_youtube` (lines 258-293): search with
`download=False` (no file written), reply and stop when the entry list
is empty, otherwise download the first entry; its `except` handler
replies with a fresh error message. -/
def search_and_download_from_youtube (senv : SearchEnv) (denv : DlEnv) (query : String)
    (metadata : Option TagMeta) (s : BotState) : BotState :=
  if senv.searchOk = false then
    emit s (Msg.replyText "Error downloading track: search failed")
  else
    match senv.entries with
    | [] => emit s (Msg.replyText "No matching tracks found on YouTube.")
    | e :: _ =>
      let _video_url := e
      download_from_youtube denv metadata s

/-- The Spotify track record used by `get_spotify_info`, mirroring the
fields read from `spotify.track(track_id)`. -/
structure TrackInfo where
  name : String
  artists : List String
  album_name : String
  album_artists : List String
  release_date : String
  duration_ms : Nat
  images : List String
  track_number : Option Nat
deriving DecidableEq

/-- Outcomes of the external calls made during a `/spotify` request:
`lookupOk` is `spotify.track` succeeding with record `track`, and the
nested search and download calls are driven by `searchEnv`/`dlEnv`. -/
structure SpotEnv where
  lookupOk : Bool
  track : TrackInfo
  searchEnv : SearchEnv
  dlEnv : DlEnv
deriving DecidableEq

def spotInProgressText : String := "Fetching info from Spotify..."

/-- Year extraction, `main.py` line 218:
`int(release_date.split("-")[0]) if "-" in release_date else None`;
`Except.error` models `int()` raising on a non-numeric component. -/
def yearOf (release_date : String) : Except Unit (Option Nat) :=
  if containsL release_date.data "-".data then
    match splitFirst "-".data release_date.data with
    | some (pre, _) =>
      match pyInt pre with
      | some y => Except.ok (some y)
      | none => Except.error ()
    | none => Except.error ()
  else Except.ok none

/-- `get_spotify_info` (lines 189-256). Creates its own status message;
on a URL without `"/track/"` edits it to a validation notice; otherwise
looks the track up (a raising lookup lands in the `except` handler,
which edits the status message to an error), normalizes the metadata,
sends the info message — as a *new* photo message when a cover image
exists, editing the status message only in the no-image case — and
hands over to the YouTube search. `metadata['year']` is only set when
the parsed year is truthy (`if year:`). -/
def get_spotify_info (env : SpotEnv) (url : String) (s : BotState) : BotState :=
  let sid := s.nextStatusId
  let s1 := createStatus s spotInProgressText
  if containsL url.data trackMarker then
    let _track_id := extract_track_id url.data
    if env.lookupOk = false then
      editStatus s1 sid "Error fetching Spotify info: lookup failed"
    else
      let t := env.track
      let title := t.name
      let artist_names := String.intercalate ", " t.artists
      let album := t.album_name
      let album_artist := String.intercalate ", " t.album_artists
      let release_date := t.release_date
      let duration := format_duration t.duration_ms
      let image_url := t.images.head?
      let track_number := t.track_number.getD 1
      match yearOf release_date with
      | Except.error _ => editStatus s1 sid "Error fetching Spotify info: bad release date"
      | Except.ok year =>
        let metadata : TagMeta := {
          title := some title
          artist := some artist_names
          album := some album
          album_artist := some album_artist
          cover_url := image_url
          year := match year with
                  | some y => if y ≠ 0 then some y else none
                  | none => none
          track_number := some track_number }
        let info_message := title ++ "\nArtist: " ++ artist_names ++ "\nAlbum: " ++ album
          ++ "\nRelease Date: " ++ release_date ++ "\nDuration: " ++ duration
          ++ "\n\nDownloading this track with ID3 tags..."
        let s2 := match image_url with
                  | some u => emit s1 (Msg.replyPhoto u info_message)
                  | none => editStatus s1 sid info_message
        let search_query := title ++ " " ++ artist_names ++ " audio"
        search_and_download_from_youtube env.searchEnv env.dlEnv search_query (some metadata) s2
  else
    editStatus s1 sid "Please provide a valid Spotify track URL."

/-- `download_command` (lines 65-75): empty argument list prompts for a
URL; otherwise only `context.args[0]` is inspected — extra arguments
are ignored. -/
def download_command (denv : DlEnv) (args : List String) (s : BotState) : BotState :=
  match args with
  | [] => emit s (Msg.replyText "Please provide a YouTube URL after the /download command.")
  | url :: _ =>
    if containsL url.data ytMarker1 || containsL url.data ytMarker2 then
      download_from_youtube denv none s
    else
      emit s (Msg.replyText "Please provide a valid YouTube URL.")

/-- Which handler a freeform message is dispatched to, and on which
whitespace-separated token. `silent` is the fall-through where a
branch's `for` loop finds no matching word and the function returns
without replying. -/
inductive HandleResult where
  | youtube (w : List Char)
  | spotify (w : List Char)
  | usageHint
  | silent
deriving DecidableEq

def isVideoWord (w : List Char) : Bool := containsL w ytMarker1 || containsL w ytMarker2

/-- `handle_message` (lines 89-112): the YouTube branch is checked on
the whole text first; only when the text contains no YouTube marker is
the Spotify branch tried; inside a branch the first matching word
wins. -/
def handle_message (text : List Char) : HandleResult :=
  if containsL text ytMarker1 || containsL text ytMarker2 then
    match (wordsOf text).find? isVideoWord with
    | some w => HandleResult.youtube w
    | none => HandleResult.silent
  else if containsL text spMarker then
    match (wordsOf text).find? (fun w => containsL w spMarker) with
    | some w => HandleResult.spotify w
    | none => HandleResult.silent
  else
    HandleResult.usageHint

def isStatusCreate : Msg → Bool
  | Msg.statusCreate _ _ => true
  | _ => false

/-- Number of status messages created in a trace. -/
def statusCreateCount (evs : List Msg) : Nat := (evs.filter isStatusCreate).length

def editPick (sid : Nat) : Msg → Option String
  | Msg.statusEdit i t => if i = sid then some t else none
  | _ => none

def createPick (sid : Nat) : Msg → Option String
  | Msg.statusCreate i t => if i = sid then some t else none
  | _ => none

def pathPick : Msg → Option String
  | Msg.fileCreated p => some p
  | _ => none

def statusEditsFor (evs : List Msg) (sid : Nat) : List String :=
  evs.filterMap (editPick sid)

def statusCreateTextsFor (evs : List Msg) (sid : Nat) : List String :=
  evs.filterMap (createPick sid)

/-- The text a status message shows once the run is over: its last
edit, or its creation text when it was never edited. -/
def finalStatusText (evs : List Msg) (sid : Nat) : Option String :=
  match (statusEditsFor evs sid).getLast? with
  | some t => some t
  | none => (statusCreateTextsFor evs sid).getLast?

/-- Paths of the artifact files written during a trace. -/
def created_paths (evs : List Msg) : List String :=
  evs.filterMap pathPick

/-! ### General lemmas about `splitFirst` and substring containment -/

theorem splitFirst_sound (sep : List Char) :
    ∀ l a b, splitFirst sep l = some (a, b) → l = a ++ (sep ++ b) := by
  intro l
  induction l with
  | nil => intro a b h; simp [splitFirst] at h
  | cons c cs ih =>
    intro a b h
    by_cases hp : sep.isPrefixOf (c :: cs)
    · simp only [splitFirst, if_pos hp, Option.some.injEq, Prod.mk.injEq] at h
      obtain ⟨ha, hb⟩ := h
      subst ha; subst hb
      obtain ⟨r, hr⟩ := List.isPrefixOf_iff_prefix.mp hp
      rw [← hr]
      simp [List.drop_left]
    · simp only [splitFirst, if_neg hp] at h
      cases hrec : splitFirst sep cs with
      | none => rw [hrec] at h; exact absurd h (by simp)
      | some pr =>
        obtain ⟨pre, post⟩ := pr
        rw [hrec] at h
        simp only [Option.some.injEq, Prod.mk.injEq] at h
        obtain ⟨ha, hb⟩ := h
        subst ha; subst hb
        rw [ih pre post hrec]
        simp

theorem splitFirst_isSome_append (sep : List Char) (hne : sep ≠ []) :
    ∀ x y, (splitFirst sep (x ++ (sep ++ y))).isSome = true := by
  intro x
  induction x with
  | nil =>
    intro y
    obtain ⟨c, s2, hcs⟩ := List.exists_cons_of_ne_nil hne
    subst hcs
    have hp : (c :: s2).isPrefixOf ((c :: s2) ++ y) = true :=
      List.isPrefixOf_iff_prefix.mpr (List.prefix_append _ _)
    simp only [List.nil_append, List.cons_append] at hp ⊢
    simp [splitFirst, hp]
  | cons d x2 ih =>
    intro y
    simp only [List.cons_append, splitFirst]
    split
    · simp
    · have h2 := ih y
      cases hrec : splitFirst sep (x2 ++ (sep ++ y)) with
      | none => rw [hrec] at h2; simp at h2
      | some pr => obtain ⟨pre, post⟩ := pr; simp

theorem containsL_append_mid (x sep y : List Char) (hne : sep ≠ []) :
    containsL (x ++ (sep ++ y)) sep = true := splitFirst_isSome_append sep hne x y

theorem splitFirst_first (sep b : List Char) (hne : sep ≠ []) :
    ∀ a, (∀ a1 a2, a = a1 ++ a2 → a2 ≠ [] → sep.isPrefixOf (a2 ++ (sep ++ b)) = false) →
    splitFirst sep (a ++ (sep ++ b)) = some (a, b) := by
  intro a
  induction a with
  | nil =>
    intro _
    obtain ⟨c, s2, hcs⟩ := List.exists_cons_of_ne_nil hne
    subst hcs
    have hp : (c :: s2).isPrefixOf ((c :: s2) ++ b) = true :=
      List.isPrefixOf_iff_prefix.mpr (List.prefix_append _ _)
    simp only [List.nil_append, List.cons_append] at hp ⊢
    simp [splitFirst, hp, List.drop_left]
  | cons c a2 ih =>
    intro h
    have h0 : sep.isPrefixOf ((c :: a2) ++ (sep ++ b)) = false :=
      h [] (c :: a2) rfl (by simp)
    simp only [List.cons_append] at h0 ⊢
    simp only [splitFirst, h0, Bool.false_eq_true, if_false]
    have h1 : ∀ a1 a3, a2 = a1 ++ a3 → a3 ≠ [] → sep.isPrefixOf (a3 ++ (sep ++ b)) = false := by
      intro a1 a3 he hn
      exact h (c :: a1) a3 (by simp [he]) hn
    rw [ih h1]

theorem prefix_of_append_left {l x y : List Char} (h : l <+: x ++ y) (hl : l.length ≤ x.length) :
    l <+: x := by
  obtain ⟨r, hr⟩ := h
  have h1 : l = (x ++ y).take l.length := by rw [← hr, List.take_left' rfl]
  rw [h1, List.take_append_of_le_length hl]
  exact List.take_prefix _ _

theorem ne_of_data_take_ne (a b : String) (n : Nat) (h : a.data.take n ≠ b.data.take n) :
    a ≠ b := fun he => h (by rw [he])

/-! ### Claim theorems -/

/-- C9: the displayed duration string is `duration_ms / 60000`,
a colon, and `(duration_ms / 1000) % 60` zero-padded to two digits;
there is no hours component, so 185000 renders as "3:05", 3661000
renders as "61:01", and any duration of at least 3600000 ms renders a
minutes field of 60 or more. -/
theorem C9_duration_rendering (ms : Nat) (h : 3600000 ≤ ms) :
    format_duration 185000 = "3:05" ∧ format_duration 3661000 = "61:01" ∧
    60 ≤ ms / 60000 ∧
    format_duration ms = toString (ms / 60000) ++ ":" ++ two_digit ((ms / 1000) % 60) := by
  refine ⟨by decide, by decide, ?_, rfl⟩
  exact (Nat.le_div_iff_mul_le (by norm_num)).mpr (by omega)

/-- Witness for C9 at the concrete input 3661000. -/
theorem C9_duration_rendering_witness :
    format_duration 185000 = "3:05" ∧ format_duration 3661000 = "61:01" ∧
    60 ≤ 3661000 / 60000 ∧
    format_duration 3661000 =
      toString (3661000 / 60000) ++ ":" ++ two_digit ((3661000 / 1000) % 60) :=
  C9_duration_rendering 3661000 (by norm_num)

/-- C10: whenever `add_id3_tags` succeeds, the album-artist tag is set:
to the album-artist entry when present, else to the artist display
string, else to "Unknown Artist". -/
theorem C10_album_artist_fallback (env : TagEnv) (m : TagMeta) (tag : ID3Tag)
    (h : add_id3_tags env m = some tag) :
    tag.album_artist = (m.album_artist.getD (m.artist.getD "Unknown Artist")) ∧
    (m.album_artist = none → m.artist = none → tag.album_artist = "Unknown Artist") ∧
    (m.album_artist = none → ∀ a, m.artist = some a → tag.album_artist = a) ∧
    (∀ b, m.album_artist = some b → tag.album_artist = b) := by
  have hbody : ∀ t, add_id3_tags_body env m = Except.ok t →
      t.album_artist = m.album_artist.getD (m.artist.getD "Unknown Artist") := by
    intro t hb
    obtain ⟨lo, fr, so⟩ := env
    cases lo with
    | false => simp [add_id3_tags_body] at hb
    | true =>
      cases so with
      | false =>
        rcases hmc : m.cover_url with _ | u
        · simp [add_id3_tags_body, hmc] at hb
        · by_cases hu : u = ""
          · simp [add_id3_tags_body, hmc, hu] at hb
          · rcases fr with _ | status
            · simp [add_id3_tags_body, hmc, hu] at hb
            · simp [add_id3_tags_body, hmc, hu] at hb
      | true =>
        rcases hmc : m.cover_url with _ | u
        · simp [add_id3_tags_body, hmc] at hb
          rw [← hb]
        · by_cases hu : u = ""
          · simp [add_id3_tags_body, hmc, hu] at hb
            rw [← hb]
          · rcases fr with _ | status
            · simp [add_id3_tags_body, hmc, hu] at hb
            · by_cases hst : status = 200 <;>
                simp [add_id3_tags_body, hmc, hu, hst] at hb <;>
                rw [← hb]
  have hfield : tag.album_artist = m.album_artist.getD (m.artist.getD "Unknown Artist") := by
    unfold add_id3_tags at h
    cases hb : add_id3_tags_body env m with
    | error e => rw [hb] at h; exact absurd h (by simp)
    | ok t =>
      rw [hb] at h
      simp only [Option.some.injEq] at h
      rw [← h]
      exact hbody t hb
  refine ⟨hfield, ?_, ?_, ?_⟩
  · intro h1 h2; rw [hfield, h1, h2]; rfl
  · intro h1 a h2; rw [hfield, h1, h2]; rfl
  · intro b h1; rw [hfield, h1]; rfl

/-- Witness for C10 on a metadata record with neither album-artist nor
artist entry; tagging succeeds and the tag reads "Unknown Artist". -/
theorem C10_album_artist_fallback_witness :
    (ID3Tag.mk "Unknown Title" "Unknown Artist" "Unknown Album" "Unknown Artist"
        none none false).album_artist =
      ((none : Option String).getD ((none : Option String).getD "Unknown Artist")) ∧
    ((none : Option String) = none → (none : Option String) = none →
      (ID3Tag.mk "Unknown Title" "Unknown Artist" "Unknown Album" "Unknown Artist"
        none none false).album_artist = "Unknown Artist") ∧
    ((none : Option String) = none → ∀ a, (none : Option String) = some a →
      (ID3Tag.mk "Unknown Title" "Unknown Artist" "Unknown Album" "Unknown Artist"
        none none false).album_artist = a) ∧
    (∀ b, (none : Option String) = some b →
      (ID3Tag.mk "Unknown Title" "Unknown Artist" "Unknown Album" "Unknown Artist"
        none none false).album_artist = b) :=
  C10_album_artist_fallback ⟨true, none, true⟩ ⟨none, none, none, none, none, none, none⟩
    (ID3Tag.mk "Unknown Title" "Unknown Artist" "Unknown Album" "Unknown Artist"
      none none false) (by decide)

/-- C4: when the YouTube search succeeds but returns an empty entry
list, the handler replies that no matching tracks were found and stops:
no download call happens, no file is created, and the state is
otherwise unchanged. -/
theorem C4_empty_search (senv : SearchEnv) (denv : DlEnv) (q : String)
    (md : Option TagMeta) (s : BotState)
    (h1 : senv.searchOk = true) (h2 : senv.entries = []) :
    search_and_download_from_youtube senv denv q md s =
      emit s (Msg.replyText "No matching tracks found on YouTube.") ∧
    (search_and_download_from_youtube senv denv q md s).files = s.files ∧
    created_paths (search_and_download_from_youtube senv denv q md s).events =
      created_paths s.events := by
  have he : search_and_download_from_youtube senv denv q md s =
      emit s (Msg.replyText "No matching tracks found on YouTube.") := by
    unfold search_and_download_from_youtube
    rw [h1, h2]
    simp
  refine ⟨he, by rw [he]; rfl, ?_⟩
  rw [he]
  simp [emit, created_paths, pathPick]

/-- Witness for C4 on a concrete empty search result. -/
theorem C4_empty_search_witness :
    search_and_download_from_youtube ⟨true, []⟩ ⟨true, none, true, ⟨true, none, true⟩⟩
        "query" none ⟨[], [], 0⟩ =
      emit ⟨[], [], 0⟩ (Msg.replyText "No matching tracks found on YouTube.") ∧
    (search_and_download_from_youtube ⟨true, []⟩ ⟨true, none, true, ⟨true, none, true⟩⟩
        "query" none ⟨[], [], 0⟩).files = ([] : List String) ∧
    created_paths (search_and_download_from_youtube ⟨true, []⟩
        ⟨true, none, true, ⟨true, none, true⟩⟩ "query" none ⟨[], [], 0⟩).events =
      created_paths ([] : List Msg) :=
  C4_empty_search ⟨true, []⟩ ⟨true, none, true, ⟨true, none, true⟩⟩ "query" none
    ⟨[], [], 0⟩ rfl rfl

/-- C8 counterexample: a `/download` call with two arguments whose
first argument is a YouTube URL silently enters the pipeline using only
the first argument (the run equals the one-argument pipeline run and
its first effect is the pipeline status message), contradicting the
claim that more than one argument does not enter the pipeline. -/
theorem C8_counterexample :
    download_command ⟨true, some "Song", true, ⟨true, none, true⟩⟩
        ["https://youtube.com/watch?v=a", "ignored-extra-argument"] ⟨[], [], 0⟩ =
      download_from_youtube ⟨true, some "Song", true, ⟨true, none, true⟩⟩ none ⟨[], [], 0⟩ ∧
    (download_command ⟨true, some "Song", true, ⟨true, none, true⟩⟩
        ["https://youtube.com/watch?v=a", "ignored-extra-argument"] ⟨[], [], 0⟩).events.head? =
      some (Msg.statusCreate 0 dlInProgressText) := by
  exact ⟨rfl, by decide⟩

/-- C8 amended: `/download` with zero arguments prompts for a URL;
otherwise only the first argument is inspected — a first argument
containing a video-host marker enters the pipeline on it regardless of
any extra arguments, and any other first argument gets a validation
error. -/
theorem C8_first_argument_dispatch (denv : DlEnv) (url : String) (rest : List String)
    (s : BotState) :
    download_command denv [] s =
      emit s (Msg.replyText "Please provide a YouTube URL after the /download command.") ∧
    download_command denv (url :: rest) s =
      (if containsL url.data ytMarker1 || containsL url.data ytMarker2 then
        download_from_youtube denv none s
      else emit s (Msg.replyText "Please provide a valid YouTube URL.")) :=
  ⟨rfl, rfl⟩

/-- Helper: whenever the yt-dlp extraction succeeds, the single file
created by a `download_from_youtube` run is at
`downloads/<resolved title>.mp3` — a function of the title alone. -/
theorem dl_created_paths (env : DlEnv) (md : Option TagMeta) (s : BotState)
    (hx : env.extractOk = true) :
    created_paths ((download_from_youtube env md s).events.drop s.events.length) =
      [file_path_for (env.extractedTitle.getD "Unknown Title")] := by
  cases md with
  | none =>
    cases hso : env.sendOk <;>
      simp [download_from_youtube, sendPhase, createStatus, createFile, editStatus, emit,
        removeFile, created_paths, pathPick, hx, hso, List.append_assoc, List.drop_left]
  | some m =>
    cases hmt : m.title <;> cases hso : env.sendOk <;>
      simp [download_from_youtube, sendPhase, createStatus, createFile, editStatus, emit,
        removeFile, created_paths, pathPick, hx, hso, hmt, List.append_assoc, List.drop_left]

/-- C2 counterexample: two distinct requests (different send outcomes
and tag environments) whose retrieved media resolve to the same title
"Song" both create their artifact at the same path
`downloads/Song.mp3` — the path is not derived from any per-request
token, contradicting the claimed path distinctness. -/
theorem C2_counterexample :
    (⟨true, some "Song", true, ⟨true, none, true⟩⟩ : DlEnv) ≠
      ⟨true, some "Song", false, ⟨false, none, true⟩⟩ ∧
    created_paths (download_from_youtube ⟨true, some "Song", true, ⟨true, none, true⟩⟩
        none ⟨[], [], 0⟩).events = ["downloads/Song.mp3"] ∧
    created_paths (download_from_youtube ⟨true, some "Song", false, ⟨false, none, true⟩⟩
        none ⟨[], [], 0⟩).events = ["downloads/Song.mp3"] := by
  decide

/-- C2 amended: the artifact path is a function of the resolved title
alone (`downloads/<title>.mp3`), so any two requests resolving to the
same title compute the same artifact path, not distinct ones. -/
theorem C2_path_function_of_title (env1 env2 : DlEnv) (md1 md2 : Option TagMeta)
    (s1 s2 : BotState)
    (h1 : env1.extractOk = true) (h2 : env2.extractOk = true)
    (ht : env1.extractedTitle = env2.extractedTitle) :
    created_paths ((download_from_youtube env1 md1 s1).events.drop s1.events.length) =
      [file_path_for (env1.extractedTitle.getD "Unknown Title")] ∧
    created_paths ((download_from_youtube env2 md2 s2).events.drop s2.events.length) =
      [file_path_for (env1.extractedTitle.getD "Unknown Title")] ∧
    created_paths ((download_from_youtube env1 md1 s1).events.drop s1.events.length) =
      created_paths ((download_from_youtube env2 md2 s2).events.drop s2.events.length) := by
  have e1 := dl_created_paths env1 md1 s1 h1
  have e2 := dl_created_paths env2 md2 s2 h2
  rw [ht] at e1
  rw [ht]
  exact ⟨e1, e2, by rw [e1, e2]⟩

/-- Witness for the amended C2 on two concrete same-titled requests. -/
theorem C2_path_function_of_title_witness :
    created_paths ((download_from_youtube ⟨true, some "Song", true, ⟨true, none, true⟩⟩
        none ⟨[], [], 0⟩).events.drop ([] : List Msg).length) =
      [file_path_for ((some "Song").getD "Unknown Title")] ∧
    created_paths ((download_from_youtube ⟨true, some "Song", false, ⟨false, none, true⟩⟩
        none ⟨[], [], 0⟩).events.drop ([] : List Msg).length) =
      [file_path_for ((some "Song").getD "Unknown Title")] ∧
    created_paths ((download_from_youtube ⟨true, some "Song", true, ⟨true, none, true⟩⟩
        none ⟨[], [], 0⟩).events.drop ([] : List Msg).length) =
      created_paths ((download_from_youtube ⟨true, some "Song", false, ⟨false, none, true⟩⟩
        none ⟨[], [], 0⟩).events.drop ([] : List Msg).length) :=
  C2_path_function_of_title ⟨true, some "Song", true, ⟨true, none, true⟩⟩
    ⟨true, some "Song", false, ⟨false, none, true⟩⟩ none none ⟨[], [], 0⟩ ⟨[], [], 0⟩
    rfl rfl rfl

/-- C1 counterexample: a run in which the download succeeds (the
artifact file is created) but the audio send fails reaches its terminal
state (the status message is edited to the error notice) with the
artifact file still in storage — deletion does not execute on that exit
path, contradicting the claimed unconditional cleanup. -/
theorem C1_counterexample :
    (download_from_youtube ⟨true, some "Song", false, ⟨true, none, true⟩⟩ none
        ⟨[], [], 0⟩).files = ["downloads/Song.mp3"] ∧
    (download_from_youtube ⟨true, some "Song", false, ⟨true, none, true⟩⟩ none
        ⟨[], [], 0⟩).events.getLast? =
      some (Msg.statusEdit 0 "Error downloading audio: send failed") := by
  decide

/-- C1 amended: the artifact is deleted only on the fully successful
path (download, title access and send all succeed); on any exception
path after the download — in particular when the send of the audio
attachment fails — the handler edits the status message to an error
notice and the artifact file remains in storage. -/
theorem C1_cleanup_only_on_success (env : DlEnv) (md : Option TagMeta) (s : BotState)
    (hx : env.extractOk = true)
    (hfresh : file_path_for (env.extractedTitle.getD "Unknown Title") ∉ s.files)
    (hmd : ∀ m, md = some m → m.title.isSome = true) :
    (env.sendOk = true → (download_from_youtube env md s).files = s.files) ∧
    (env.sendOk = false → (download_from_youtube env md s).files =
      s.files ++ [file_path_for (env.extractedTitle.getD "Unknown Title")]) := by
  have herase : (s.files ++ [file_path_for (env.extractedTitle.getD "Unknown Title")]).erase
      (file_path_for (env.extractedTitle.getD "Unknown Title")) = s.files := by
    rw [List.erase_append_right _ hfresh, List.erase_cons_head, List.append_nil]
  constructor
  · intro hs
    cases md with
    | none =>
      simp [download_from_youtube, sendPhase, createStatus, createFile, editStatus, emit,
        removeFile, hx, hs, herase]
    | some m =>
      obtain ⟨t, hmt⟩ := Option.isSome_iff_exists.mp (hmd m rfl)
      simp [download_from_youtube, sendPhase, createStatus, createFile, editStatus, emit,
        removeFile, hx, hs, hmt, herase]
  · intro hs
    cases md with
    | none =>
      simp [download_from_youtube, sendPhase, createStatus, createFile, editStatus, emit,
        removeFile, hx, hs]
    | some m =>
      cases hmt : m.title <;>
        simp [download_from_youtube, sendPhase, createStatus, createFile, editStatus, emit,
          removeFile, hx, hs, hmt]

/-- Witness for the amended C1 on a concrete successful run. -/
theorem C1_cleanup_only_on_success_witness :
    ((true = true → (download_from_youtube ⟨true, some "Song", true, ⟨true, none, true⟩⟩ none
        ⟨[], [], 0⟩).files = ([] : List String)) ∧
     (true = false → (download_from_youtube ⟨true, some "Song", true, ⟨true, none, true⟩⟩ none
        ⟨[], [], 0⟩).files =
          ([] : List String) ++ [file_path_for ((some "Song").getD "Unknown Title")])) :=
  C1_cleanup_only_on_success ⟨true, some "Song", true, ⟨true, none, true⟩⟩ none ⟨[], [], 0⟩
    rfl (by decide) (fun m h => by cases h)

/-- C3: every error inside tag enrichment is caught there and does not
propagate: whatever the tag environment (cover fetch raising, malformed
file, failing tag write), a run with successful download and send emits
the same trace — the tag outcome is recorded, the possibly untagged
artifact is still sent to the requester, and the artifact file is
deleted. -/
theorem C3_tag_errors_swallowed (tenv : TagEnv) (et : Option String) (m : TagMeta)
    (t : String) (s : BotState) (hm : m.title = some t)
    (hfresh : file_path_for (et.getD "Unknown Title") ∉ s.files) :
    (download_from_youtube ⟨true, et, true, tenv⟩ (some m) s).events =
      s.events ++ [Msg.statusCreate s.nextStatusId dlInProgressText,
        Msg.fileCreated (file_path_for (et.getD "Unknown Title")),
        Msg.tagOutcome (add_id3_tags tenv m),
        Msg.statusEdit s.nextStatusId ("Downloaded: " ++ t),
        Msg.replyAudio t] ∧
    (download_from_youtube ⟨true, et, true, tenv⟩ (some m) s).files = s.files := by
  have herase : (s.files ++ [file_path_for (et.getD "Unknown Title")]).erase
      (file_path_for (et.getD "Unknown Title")) = s.files := by
    rw [List.erase_append_right _ hfresh, List.erase_cons_head, List.append_nil]
  constructor
  · simp [download_from_youtube, sendPhase, createStatus, createFile, editStatus, emit,
      removeFile, hm]
  · simp [download_from_youtube, sendPhase, createStatus, createFile, editStatus, emit,
      removeFile, hm, herase]

/-- Witness for C3 on a concrete run whose tag enrichment fails
(`eyed3.load` raises): `add_id3_tags` returns `none`, yet the audio is
sent and the file deleted. -/
theorem C3_tag_errors_swallowed_witness :
    add_id3_tags ⟨false, none, true⟩
      ⟨some "Song", some "Artist", none, none, some "http://img", none, none⟩ = none ∧
    ((download_from_youtube ⟨true, some "YT Title", true, ⟨false, none, true⟩⟩
        (some ⟨some "Song", some "Artist", none, none, some "http://img", none, none⟩)
        ⟨[], [], 0⟩).events =
      ([] : List Msg) ++ [Msg.statusCreate 0 dlInProgressText,
        Msg.fileCreated (file_path_for ((some "YT Title").getD "Unknown Title")),
        Msg.tagOutcome (add_id3_tags ⟨false, none, true⟩
          ⟨some "Song", some "Artist", none, none, some "http://img", none, none⟩),
        Msg.statusEdit 0 ("Downloaded: " ++ "Song"),
        Msg.replyAudio "Song"] ∧
     (download_from_youtube ⟨true, some "YT Title", true, ⟨false, none, true⟩⟩
        (some ⟨some "Song", some "Artist", none, none, some "http://img", none, none⟩)
        ⟨[], [], 0⟩).files = ([] : List String)) :=
  ⟨by decide,
   C3_tag_errors_swallowed ⟨false, none, true⟩ (some "YT Title")
     ⟨some "Song", some "Artist", none, none, some "http://img", none, none⟩ "Song"
     ⟨[], [], 0⟩ rfl (by decide)⟩

theorem statusCreateCount_append (L1 L2 : List Msg) :
    statusCreateCount (L1 ++ L2) = statusCreateCount L1 + statusCreateCount L2 := by
  simp [statusCreateCount, List.filter_append]

theorem statusEditsFor_append (L1 L2 : List Msg) (sid : Nat) :
    statusEditsFor (L1 ++ L2) sid = statusEditsFor L1 sid ++ statusEditsFor L2 sid := by
  simp [statusEditsFor, List.filterMap_append]

theorem statusCreateTextsFor_append (L1 L2 : List Msg) (sid : Nat) :
    statusCreateTextsFor (L1 ++ L2) sid =
      statusCreateTextsFor L1 sid ++ statusCreateTextsFor L2 sid := by
  simp [statusCreateTextsFor, List.filterMap_append]

theorem statusEditsFor_eq_nil (sid : Nat) :
    ∀ L : List Msg, (∀ i t2, Msg.statusEdit i t2 ∈ L → i ≠ sid) →
      statusEditsFor L sid = [] := by
  intro L
  induction L with
  | nil => intro _; rfl
  | cons ev L ih =>
    intro h
    have ih2 := ih (fun i t2 hm => h i t2 (List.mem_cons_of_mem ev hm))
    unfold statusEditsFor at ih2 ⊢
    rw [List.filterMap_cons]
    cases ev with
    | statusEdit i t2 =>
      have hne : i ≠ sid := h i t2 (List.mem_cons_self _ _)
      simp [editPick, hne, ih2]
    | statusCreate i t2 => simp [editPick, ih2]
    | replyText t2 => simp [editPick, ih2]
    | replyPhoto a b => simp [editPick, ih2]
    | replyAudio t2 => simp [editPick, ih2]
    | tagOutcome r => simp [editPick, ih2]
    | fileCreated p => simp [editPick, ih2]

theorem statusCreateTextsFor_eq_nil (sid : Nat) :
    ∀ L : List Msg, (∀ i t2, Msg.statusCreate i t2 ∈ L → i ≠ sid) →
      statusCreateTextsFor L sid = [] := by
  intro L
  induction L with
  | nil => intro _; rfl
  | cons ev L ih =>
    intro h
    have ih2 := ih (fun i t2 hm => h i t2 (List.mem_cons_of_mem ev hm))
    unfold statusCreateTextsFor at ih2 ⊢
    rw [List.filterMap_cons]
    cases ev with
    | statusCreate i t2 =>
      have hne : i ≠ sid := h i t2 (List.mem_cons_self _ _)
      simp [createPick, hne, ih2]
    | statusEdit i t2 => simp [createPick, ih2]
    | replyText t2 => simp [createPick, ih2]
    | replyPhoto a b => simp [createPick, ih2]
    | replyAudio t2 => simp [createPick, ih2]
    | tagOutcome r => simp [createPick, ih2]
    | fileCreated p => simp [createPick, ih2]

theorem downloaded_ne_inprogress (t : String) : "Downloaded: " ++ t ≠ dlInProgressText := by
  apply ne_of_data_take_ne _ _ 9
  rw [String.data_append, List.take_append_of_le_length (by decide)]
  decide

/-- Helper: full characterization of the effects of one
`download_from_youtube` run on the event trace — it appends a block `L`
of new events that contains exactly one status-message creation (with
the in-progress text, under the fresh id), all of whose status edits
are for that same id, and whose last status edit is a final-outcome
text different from the in-progress text. -/
theorem dl_run_trace (env : DlEnv) (md : Option TagMeta) (s : BotState) :
    ∃ L txt,
      (download_from_youtube env md s).events = s.events ++ L ∧
      (download_from_youtube env md s).nextStatusId = s.nextStatusId + 1 ∧
      statusCreateCount L = 1 ∧
      statusCreateTextsFor L s.nextStatusId = [dlInProgressText] ∧
      (∀ i t2, Msg.statusCreate i t2 ∈ L → i = s.nextStatusId) ∧
      (∀ i t2, Msg.statusEdit i t2 ∈ L → i = s.nextStatusId) ∧
      (statusEditsFor L s.nextStatusId).getLast? = some txt ∧
      txt ≠ dlInProgressText := by
  cases hx : env.extractOk with
  | false =>
    refine ⟨[Msg.statusCreate s.nextStatusId dlInProgressText,
      Msg.statusEdit s.nextStatusId "Error downloading audio: download failed"],
      "Error downloading audio: download failed", ?_, ?_, ?_, ?_, ?_, ?_, ?_, by decide⟩
    · simp [download_from_youtube, createStatus, editStatus, emit, hx, List.append_assoc]
    · simp [download_from_youtube, createStatus, editStatus, emit, hx]
    · simp [statusCreateCount, isStatusCreate]
    · simp [statusCreateTextsFor, createPick, List.filterMap_cons]
    · intro i t2 hm; simp at hm; tauto
    · intro i t2 hm; simp at hm; tauto
    · have heq : statusEditsFor [Msg.statusCreate s.nextStatusId dlInProgressText,
          Msg.statusEdit s.nextStatusId "Error downloading audio: download failed"]
          s.nextStatusId = ["Error downloading audio: download failed"] := by
        simp [statusEditsFor, editPick, List.filterMap_cons]
      rw [heq]; rfl
  | true =>
    cases md with
    | none =>
      cases hso : env.sendOk with
      | true =>
        refine ⟨[Msg.statusCreate s.nextStatusId dlInProgressText,
          Msg.fileCreated (file_path_for (env.extractedTitle.getD "Unknown Title")),
          Msg.statusEdit s.nextStatusId
            ("Downloaded: " ++ env.extractedTitle.getD "Unknown Title"),
          Msg.replyAudio (env.extractedTitle.getD "Unknown Title")],
          "Downloaded: " ++ env.extractedTitle.getD "Unknown Title",
          ?_, ?_, ?_, ?_, ?_, ?_, ?_, downloaded_ne_inprogress _⟩
        · simp [download_from_youtube, sendPhase, createStatus, createFile, editStatus,
            emit, removeFile, hx, hso, List.append_assoc]
        · simp [download_from_youtube, sendPhase, createStatus, createFile, editStatus,
            emit, removeFile, hx, hso]
        · simp [statusCreateCount, isStatusCreate]
        · simp [statusCreateTextsFor, createPick, List.filterMap_cons]
        · intro i t2 hm; simp at hm; tauto
        · intro i t2 hm; simp at hm; tauto
        · have heq : statusEditsFor [Msg.statusCreate s.nextStatusId dlInProgressText,
              Msg.fileCreated (file_path_for (env.extractedTitle.getD "Unknown Title")),
              Msg.statusEdit s.nextStatusId
                ("Downloaded: " ++ env.extractedTitle.getD "Unknown Title"),
              Msg.replyAudio (env.extractedTitle.getD "Unknown Title")] s.nextStatusId =
              ["Downloaded: " ++ env.extractedTitle.getD "Unknown Title"] := by
            simp [statusEditsFor, editPick, List.filterMap_cons]
          rw [heq]; rfl
      | false =>
        refine ⟨[Msg.statusCreate s.nextStatusId dlInProgressText,
          Msg.fileCreated (file_path_for (env.extractedTitle.getD "Unknown Title")),
          Msg.statusEdit s.nextStatusId
            ("Downloaded: " ++ env.extractedTitle.getD "Unknown Title"),
          Msg.statusEdit s.nextStatusId "Error downloading audio: send failed"],
          "Error downloading audio: send failed",
          ?_, ?_, ?_, ?_, ?_, ?_, ?_, by decide⟩
        · simp [download_from_youtube, sendPhase, createStatus, createFile, editStatus,
            emit, removeFile, hx, hso, List.append_assoc]
        · simp [download_from_youtube, sendPhase, createStatus, createFile, editStatus,
            emit, removeFile, hx, hso]
        · simp [statusCreateCount, isStatusCreate]
        · simp [statusCreateTextsFor, createPick, List.filterMap_cons]
        · intro i t2 hm; simp at hm; tauto
        · intro i t2 hm; simp at hm; tauto
        · have heq : statusEditsFor [Msg.statusCreate s.nextStatusId dlInProgressText,
              Msg.fileCreated (file_path_for (env.extractedTitle.getD "Unknown Title")),
              Msg.statusEdit s.nextStatusId
                ("Downloaded: " ++ env.extractedTitle.getD "Unknown Title"),
              Msg.statusEdit s.nextStatusId "Error downloading audio: send failed"]
              s.nextStatusId =
              ["Downloaded: " ++ env.extractedTitle.getD "Unknown Title",
               "Error downloading audio: send failed"] := by
            simp [statusEditsFor, editPick, List.filterMap_cons]
          rw [heq]; rfl
    | some m =>
      cases hmt : m.title with
      | none =>
        refine ⟨[Msg.statusCreate s.nextStatusId dlInProgressText,
          Msg.fileCreated (file_path_for (env.extractedTitle.getD "Unknown Title")),
          Msg.tagOutcome (add_id3_tags env.tagEnv m),
          Msg.statusEdit s.nextStatusId "Error downloading audio: missing title key"],
          "Error downloading audio: missing title key",
          ?_, ?_, ?_, ?_, ?_, ?_, ?_, by decide⟩
        · simp [download_from_youtube, sendPhase, createStatus, createFile, editStatus,
            emit, removeFile, hx, hmt, List.append_assoc]
        · simp [download_from_youtube, sendPhase, createStatus, createFile, editStatus,
            emit, removeFile, hx, hmt]
        · simp [statusCreateCount, isStatusCreate]
        · simp [statusCreateTextsFor, createPick, List.filterMap_cons]
        · intro i t2 hm; simp at hm; tauto
        · intro i t2 hm; simp at hm; tauto
        · have heq : statusEditsFor [Msg.statusCreate s.nextStatusId dlInProgressText,
              Msg.fileCreated (file_path_for (env.extractedTitle.getD "Unknown Title")),
              Msg.tagOutcome (add_id3_tags env.tagEnv m),
              Msg.statusEdit s.nextStatusId "Error downloading audio: missing title key"]
              s.nextStatusId = ["Error downloading audio: missing title key"] := by
            simp [statusEditsFor, editPick, List.filterMap_cons]
          rw [heq]; rfl
      | some t =>
        cases hso : env.sendOk with
        | true =>
          refine ⟨[Msg.statusCreate s.nextStatusId dlInProgressText,
            Msg.fileCreated (file_path_for (env.extractedTitle.getD "Unknown Title")),
            Msg.tagOutcome (add_id3_tags env.tagEnv m),
            Msg.statusEdit s.nextStatusId ("Downloaded: " ++ t),
            Msg.replyAudio t],
            "Downloaded: " ++ t,
            ?_, ?_, ?_, ?_, ?_, ?_, ?_, downloaded_ne_inprogress _⟩
          · simp [download_from_youtube, sendPhase, createStatus, createFile, editStatus,
              emit, removeFile, hx, hso, hmt, List.append_assoc]
          · simp [download_from_youtube, sendPhase, createStatus, createFile, editStatus,
              emit, removeFile, hx, hso, hmt]
          · simp [statusCreateCount, isStatusCreate]
          · simp [statusCreateTextsFor, createPick, List.filterMap_cons]
          · intro i t2 hm; simp at hm; tauto
          · intro i t2 hm; simp at hm; tauto
          · have heq : statusEditsFor [Msg.statusCreate s.nextStatusId dlInProgressText,
                Msg.fileCreated (file_path_for (env.extractedTitle.getD "Unknown Title")),
                Msg.tagOutcome (add_id3_tags env.tagEnv m),
                Msg.statusEdit s.nextStatusId ("Downloaded: " ++ t),
                Msg.replyAudio t] s.nextStatusId = ["Downloaded: " ++ t] := by
              simp [statusEditsFor, editPick, List.filterMap_cons]
            rw [heq]; rfl
        | false =>
          refine ⟨[Msg.statusCreate s.nextStatusId dlInProgressText,
            Msg.fileCreated (file_path_for (env.extractedTitle.getD "Unknown Title")),
            Msg.tagOutcome (add_id3_tags env.tagEnv m),
            Msg.statusEdit s.nextStatusId ("Downloaded: " ++ t),
            Msg.statusEdit s.nextStatusId "Error downloading audio: send failed"],
            "Error downloading audio: send failed",
            ?_, ?_, ?_, ?_, ?_, ?_, ?_, by decide⟩
          · simp [download_from_youtube, sendPhase, createStatus, createFile, editStatus,
              emit, removeFile, hx, hso, hmt, List.append_assoc]
          · simp [download_from_youtube, sendPhase, createStatus, createFile, editStatus,
              emit, removeFile, hx, hso, hmt]
          · simp [statusCreateCount, isStatusCreate]
          · simp [statusCreateTextsFor, createPick, List.filterMap_cons]
          · intro i t2 hm; simp at hm; tauto
          · intro i t2 hm; simp at hm; tauto
          · have heq : statusEditsFor [Msg.statusCreate s.nextStatusId dlInProgressText,
                Msg.fileCreated (file_path_for (env.extractedTitle.getD "Unknown Title")),
                Msg.tagOutcome (add_id3_tags env.tagEnv m),
                Msg.statusEdit s.nextStatusId ("Downloaded: " ++ t),
                Msg.statusEdit s.nextStatusId "Error downloading audio: send failed"]
                s.nextStatusId =
                ["Downloaded: " ++ t, "Error downloading audio: send failed"] := by
              simp [statusEditsFor, editPick, List.filterMap_cons]
            rw [heq]; rfl

/-- C6 counterexample: a fully successful catalog request (track found,
cover image present, search and download succeed) creates two status
messages, and the first one — created by `get_spotify_info` — is never
edited: at the terminal state it still shows the in-progress lookup
text, contradicting the claim that exactly one status message exists
and is never left in progress. -/
theorem C6_counterexample :
    statusCreateCount (get_spotify_info
      ⟨true, ⟨"A", ["B"], "C", ["B"], "2021-05-14", 185000, ["http://img"], some 1⟩,
        ⟨true, [some "http://yt"]⟩, ⟨true, some "A (Audio)", true, ⟨true, some 200, true⟩⟩⟩
      "https://open.spotify.com/track/XYZ?si=1" ⟨[], [], 0⟩).events = 2 ∧
    finalStatusText (get_spotify_info
      ⟨true, ⟨"A", ["B"], "C", ["B"], "2021-05-14", 185000, ["http://img"], some 1⟩,
        ⟨true, [some "http://yt"]⟩, ⟨true, some "A (Audio)", true, ⟨true, some 200, true⟩⟩⟩
      "https://open.spotify.com/track/XYZ?si=1" ⟨[], [], 0⟩).events 0 =
      some spotInProgressText := by
  decide

/-- C6 amended: each download-stage run creates exactly one status
message and always edits it in place to a final-outcome text, never
leaving it at the in-progress text; but a catalog request does not
reuse its status message: the lookup stage creates one status message,
the download stage creates a second one, and when a cover image exists
the lookup status message is never edited and still shows the
in-progress lookup text at the terminal state. -/
theorem C6_status_message_behaviour
    (denv : DlEnv) (md : Option TagMeta) (sd : BotState)
    (env : SpotEnv) (url : String) (s : BotState) (u : String) (imgs : List String)
    (y : Option Nat) (e : Option String) (es : List (Option String))
    (hurl : containsL url.data trackMarker = true)
    (hlk : env.lookupOk = true)
    (himg : env.track.images = u :: imgs)
    (hyr : yearOf env.track.release_date = Except.ok y)
    (hsok : env.searchEnv.searchOk = true)
    (hent : env.searchEnv.entries = e :: es) :
    (statusCreateCount ((download_from_youtube denv md sd).events.drop sd.events.length) = 1 ∧
     ∃ txt, finalStatusText ((download_from_youtube denv md sd).events.drop sd.events.length)
         sd.nextStatusId = some txt ∧ txt ≠ dlInProgressText) ∧
    (statusCreateCount ((get_spotify_info env url s).events.drop s.events.length) = 2 ∧
     finalStatusText ((get_spotify_info env url s).events.drop s.events.length)
       s.nextStatusId = some spotInProgressText) := by
  constructor
  · obtain ⟨L, txt, hev, hnid, hcnt, hct, hcm, hem, hlast, hne⟩ := dl_run_trace denv md sd
    rw [hev, List.drop_left]
    refine ⟨hcnt, txt, ?_, hne⟩
    simp only [finalStatusText]
    rw [hlast]
  · have main : ∀ (md2 : TagMeta) (cap : String),
        statusCreateCount ((download_from_youtube env.dlEnv (some md2)
          (emit (createStatus s spotInProgressText)
            (Msg.replyPhoto u cap))).events.drop s.events.length) = 2 ∧
        finalStatusText ((download_from_youtube env.dlEnv (some md2)
          (emit (createStatus s spotInProgressText)
            (Msg.replyPhoto u cap))).events.drop s.events.length)
          s.nextStatusId = some spotInProgressText := by
      intro md2 cap
      obtain ⟨L, txt, hev, hnid, hcnt, hct, hcm, hem, hlast, hne⟩ :=
        dl_run_trace env.dlEnv (some md2)
          (emit (createStatus s spotInProgressText) (Msg.replyPhoto u cap))
      have hS2ev : (emit (createStatus s spotInProgressText)
          (Msg.replyPhoto u cap)).events =
          s.events ++ ([Msg.statusCreate s.nextStatusId spotInProgressText] ++
            ([Msg.replyPhoto u cap] ++ [])) := by
        simp [emit, createStatus]
      have hS2id : (emit (createStatus s spotInProgressText)
          (Msg.replyPhoto u cap)).nextStatusId = s.nextStatusId + 1 := rfl
      rw [hS2ev] at hev
      rw [hS2id] at hcm hem
      rw [hev]
      have hassoc : s.events ++ ([Msg.statusCreate s.nextStatusId spotInProgressText] ++
          ([Msg.replyPhoto u cap] ++ [])) ++ L =
          s.events ++ ([Msg.statusCreate s.nextStatusId spotInProgressText] ++
            ([Msg.replyPhoto u cap] ++ L)) := by
        simp [List.append_assoc]
      rw [hassoc, List.drop_left]
      constructor
      · rw [statusCreateCount_append, statusCreateCount_append]
        have h1 : statusCreateCount [Msg.statusCreate s.nextStatusId spotInProgressText] = 1 := by
          simp [statusCreateCount, isStatusCreate]
        have h2 : statusCreateCount [Msg.replyPhoto u cap] = 0 := by
          simp [statusCreateCount, isStatusCreate]
        rw [h1, h2, hcnt]
      · have hed : statusEditsFor ([Msg.statusCreate s.nextStatusId spotInProgressText] ++
            ([Msg.replyPhoto u cap] ++ L)) s.nextStatusId = [] := by
          rw [statusEditsFor_append, statusEditsFor_append]
          have h1 : statusEditsFor [Msg.statusCreate s.nextStatusId spotInProgressText]
              s.nextStatusId = [] := by simp [statusEditsFor, editPick]
          have h2 : statusEditsFor [Msg.replyPhoto u cap] s.nextStatusId = [] := by
            simp [statusEditsFor, editPick]
          have h3 : statusEditsFor L s.nextStatusId = [] := by
            apply statusEditsFor_eq_nil
            intro i t2 hm
            rw [hem i t2 hm]
            omega
          rw [h1, h2, h3]
          rfl
        have hcr : statusCreateTextsFor ([Msg.statusCreate s.nextStatusId spotInProgressText] ++
            ([Msg.replyPhoto u cap] ++ L)) s.nextStatusId = [spotInProgressText] := by
          rw [statusCreateTextsFor_append, statusCreateTextsFor_append]
          have h1 : statusCreateTextsFor [Msg.statusCreate s.nextStatusId spotInProgressText]
              s.nextStatusId = [spotInProgressText] := by
            simp [statusCreateTextsFor, createPick]
          have h2 : statusCreateTextsFor [Msg.replyPhoto u cap] s.nextStatusId = [] := by
            simp [statusCreateTextsFor, createPick]
          have h3 : statusCreateTextsFor L s.nextStatusId = [] := by
            apply statusCreateTextsFor_eq_nil
            intro i t2 hm
            rw [hcm i t2 hm]
            omega
          rw [h1, h2, h3]
          rfl
        simp only [finalStatusText]
        rw [hed, hcr]
        rfl
    have hrun : get_spotify_info env url s =
        download_from_youtube env.dlEnv
          (some { title := some env.track.name,
                  artist := some (String.intercalate ", " env.track.artists),
                  album := some env.track.album_name,
                  album_artist := some (String.intercalate ", " env.track.album_artists),
                  cover_url := some u,
                  year := match y with
                          | some y2 => if y2 ≠ 0 then some y2 else none
                          | none => none,
                  track_number := some (env.track.track_number.getD 1) })
          (emit (createStatus s spotInProgressText)
            (Msg.replyPhoto u (env.track.name ++ "\nArtist: " ++
              String.intercalate ", " env.track.artists ++ "\nAlbum: " ++
              env.track.album_name ++ "\nRelease Date: " ++ env.track.release_date ++
              "\nDuration: " ++ format_duration env.track.duration_ms ++
              "\n\nDownloading this track with ID3 tags..."))) := by
      simp only [get_spotify_info, search_and_download_from_youtube, hurl, hlk, hyr, himg,
        hsok, hent, List.head?_cons, if_true, Bool.true_eq_false, if_false]
      cases y <;> rfl
    rw [hrun]
    exact main _ _

/-- Witness for the amended C6 on a concrete direct-video run and a
concrete catalog run with a cover image. -/
theorem C6_status_message_behaviour_witness :
    (statusCreateCount ((download_from_youtube ⟨true, some "T", true, ⟨true, none, true⟩⟩
        none ⟨[], [], 0⟩).events.drop 0) = 1 ∧
     ∃ txt, finalStatusText ((download_from_youtube ⟨true, some "T", true, ⟨true, none, true⟩⟩
        none ⟨[], [], 0⟩).events.drop 0) 0 = some txt ∧ txt ≠ dlInProgressText) ∧
    (statusCreateCount ((get_spotify_info
        ⟨true, ⟨"A", ["B"], "C", ["B"], "2021-05-14", 185000, ["http://img"], some 1⟩,
          ⟨true, [some "http://yt"]⟩, ⟨true, some "A (Audio)", true, ⟨true, some 200, true⟩⟩⟩
        "https://open.spotify.com/track/XYZ?si=1" ⟨[], [], 0⟩).events.drop 0) = 2 ∧
     finalStatusText ((get_spotify_info
        ⟨true, ⟨"A", ["B"], "C", ["B"], "2021-05-14", 185000, ["http://img"], some 1⟩,
          ⟨true, [some "http://yt"]⟩, ⟨true, some "A (Audio)", true, ⟨true, some 200, true⟩⟩⟩
        "https://open.spotify.com/track/XYZ?si=1" ⟨[], [], 0⟩).events.drop 0) 0 =
       some spotInProgressText) :=
  C6_status_message_behaviour ⟨true, some "T", true, ⟨true, none, true⟩⟩ none ⟨[], [], 0⟩
    ⟨true, ⟨"A", ["B"], "C", ["B"], "2021-05-14", 185000, ["http://img"], some 1⟩,
      ⟨true, [some "http://yt"]⟩, ⟨true, some "A (Audio)", true, ⟨true, some 200, true⟩⟩⟩
    "https://open.spotify.com/track/XYZ?si=1" ⟨[], [], 0⟩ "http://img" []
    (some 2021) (some "http://yt") [] (by decide) rfl rfl rfl rfl rfl

/-! ### Lemmas about word splitting, for the freeform-message handler -/

theorem wordsOf_cons_space (c : Char) (l : List Char) (h : isSpaceC c = true) :
    wordsOf (c :: l) = wordsOf l := by
  unfold wordsOf
  rw [List.splitOnP_cons, if_pos h]
  simp

theorem splitOnP_words (l : List Char) :
    ∃ t1, List.splitOnP isSpaceC l = (l.takeWhile notSpace) :: t1 ∧
      t1.filter (fun w => !w.isEmpty) = wordsOf (l.dropWhile notSpace) := by
  induction l with
  | nil => exact ⟨[], by simp, by simp [wordsOf]⟩
  | cons c l ih =>
    obtain ⟨t1, h1, h2⟩ := ih
    cases hc : isSpaceC c with
    | true =>
      refine ⟨List.splitOnP isSpaceC l, ?_, ?_⟩
      · rw [List.splitOnP_cons, if_pos hc]
        simp [List.takeWhile_cons, notSpace, hc]
      · rw [show (c :: l).dropWhile notSpace = c :: l from by
          simp [List.dropWhile_cons, notSpace, hc]]
        rw [wordsOf_cons_space c l hc]
        rfl
    | false =>
      refine ⟨t1, ?_, ?_⟩
      · rw [List.splitOnP_cons, if_neg (by simp [hc]), h1]
        simp [List.takeWhile_cons, notSpace, hc, List.modifyHead]
      · rw [show (c :: l).dropWhile notSpace = l.dropWhile notSpace from by
          simp [List.dropWhile_cons, notSpace, hc]]
        exact h2

theorem wordsOf_cons_nonspace (c : Char) (l : List Char) (h : isSpaceC c = false) :
    wordsOf (c :: l) = (c :: l.takeWhile notSpace) :: wordsOf (l.dropWhile notSpace) := by
  obtain ⟨t1, h1, h2⟩ := splitOnP_words (c :: l)
  have htw : (c :: l).takeWhile notSpace = c :: l.takeWhile notSpace := by
    simp [List.takeWhile_cons, notSpace, h]
  have hdw : (c :: l).dropWhile notSpace = l.dropWhile notSpace := by
    simp [List.dropWhile_cons, notSpace, h]
  rw [htw] at h1
  rw [hdw] at h2
  unfold wordsOf
  rw [h1, List.filter_cons]
  simp only [List.isEmpty_cons, Bool.not_false, if_pos]
  rw [h2]
  rfl

theorem contains_cons (c : Char) (t m : List Char) (h : containsL t m = true) :
    containsL (c :: t) m = true := by
  unfold containsL at h ⊢
  simp only [splitFirst]
  split
  · simp
  · cases hrec : splitFirst m t with
    | none => rw [hrec] at h; simp at h
    | some pr => obtain ⟨a, b⟩ := pr; simp

theorem contains_of_isPrefixOf (m w : List Char) (hne : m ≠ []) (h : m.isPrefixOf w = true) :
    containsL w m = true := by
  cases w with
  | nil =>
    have h2 : m <+: [] := List.isPrefixOf_iff_prefix.mp h
    exact absurd (List.prefix_nil.mp h2) hne
  | cons c w2 =>
    unfold containsL
    simp [splitFirst, h]

theorem prefix_takeWhile (P : Char → Bool) :
    ∀ (m l : List Char), m <+: l → (∀ c ∈ m, P c = true) → m <+: l.takeWhile P := by
  intro m
  induction m with
  | nil => intro l _ _; exact List.nil_prefix
  | cons c m2 ih =>
    intro l hp hall
    obtain ⟨r, hr⟩ := hp
    subst hr
    have hc := hall c (List.mem_cons_self _ _)
    rw [List.cons_append, List.takeWhile_cons, hc]
    simp only [if_true]
    rw [List.cons_prefix_cons]
    exact ⟨rfl, ih (m2 ++ r) (List.prefix_append m2 r)
      (fun c2 hc2 => hall c2 (List.mem_cons_of_mem c hc2))⟩

/-- A whitespace-free pattern occurring anywhere in a text occurs
inside one of the text's whitespace-separated words. -/
theorem contains_word : ∀ (l m : List Char), m ≠ [] → (∀ c ∈ m, isSpaceC c = false) →
    containsL l m = true → ∃ w ∈ wordsOf l, containsL w m = true := by
  intro l
  induction l with
  | nil => intro m hne hns h; simp [containsL, splitFirst] at h
  | cons c t ih =>
    intro m hne hns h
    by_cases hp : m.isPrefixOf (c :: t) = true
    · obtain ⟨d, m2, hd⟩ := List.exists_cons_of_ne_nil hne
      subst hd
      have hdc : d = c := by
        have h2 : d :: m2 <+: c :: t := List.isPrefixOf_iff_prefix.mp hp
        exact (List.cons_prefix_cons.mp h2).1
      subst hdc
      have hcns : isSpaceC d = false := hns d (List.mem_cons_self _ _)
      have hw : (d :: m2) <+: (d :: t).takeWhile notSpace := by
        apply prefix_takeWhile
        · exact List.isPrefixOf_iff_prefix.mp hp
        · intro c2 hc2
          simp [notSpace, hns c2 hc2]
      have htw : (d :: t).takeWhile notSpace = d :: t.takeWhile notSpace := by
        simp [List.takeWhile_cons, notSpace, hcns]
      rw [htw] at hw
      refine ⟨d :: t.takeWhile notSpace, ?_, ?_⟩
      · rw [wordsOf_cons_nonspace d t hcns]
        exact List.mem_cons_self _ _
      · exact contains_of_isPrefixOf _ _ (by simp)
          (List.isPrefixOf_iff_prefix.mpr hw)
    · have ht : containsL t m = true := by
        unfold containsL at h
        simp only [splitFirst, if_neg hp] at h
        cases hrec : splitFirst m t with
        | none => rw [hrec] at h; simp at h
        | some pr => simp [containsL, hrec]
      obtain ⟨w, hw, hcw⟩ := ih m hne hns ht
      cases hc : isSpaceC c with
      | true => exact ⟨w, by rw [wordsOf_cons_space c t hc]; exact hw, hcw⟩
      | false =>
        cases t with
        | nil => simp [wordsOf] at hw
        | cons d t2 =>
          cases hd : isSpaceC d with
          | true =>
            have hrw : wordsOf (c :: d :: t2) = [c] :: wordsOf (d :: t2) := by
              rw [wordsOf_cons_nonspace c (d :: t2) hc]
              have h1 : (d :: t2).takeWhile notSpace = [] := by
                simp [List.takeWhile_cons, notSpace, hd]
              have h2 : (d :: t2).dropWhile notSpace = d :: t2 := by
                simp [List.dropWhile_cons, notSpace, hd]
              rw [h1, h2]
            exact ⟨w, by rw [hrw]; exact List.mem_cons_of_mem _ hw, hcw⟩
          | false =>
            rw [wordsOf_cons_nonspace d t2 hd] at hw
            have hw2 : wordsOf (c :: d :: t2) =
                (c :: d :: t2.takeWhile notSpace) :: wordsOf (t2.dropWhile notSpace) := by
              rw [wordsOf_cons_nonspace c (d :: t2) hc]
              have h1 : (d :: t2).takeWhile notSpace = d :: t2.takeWhile notSpace := by
                simp [List.takeWhile_cons, notSpace, hd]
              have h2 : (d :: t2).dropWhile notSpace = t2.dropWhile notSpace := by
                simp [List.dropWhile_cons, notSpace, hd]
              rw [h1, h2]
            rcases List.mem_cons.mp hw with heq | hmem
            · subst heq
              refine ⟨c :: d :: t2.takeWhile notSpace,
                by rw [hw2]; exact List.mem_cons_self _ _, ?_⟩
              exact contains_cons c _ m hcw
            · exact ⟨w, by rw [hw2]; exact List.mem_cons_of_mem _ hmem, hcw⟩

/-- C5 counterexample: in the message
"spotify.com/track/a youtube.com/b" the first token containing a
recognized marker is the catalog-track token, yet the handler
dispatches on the later video-host token, because the YouTube branch is
checked on the whole text before the Spotify branch is ever tried. -/
theorem C5_counterexample :
    (wordsOf "spotify.com/track/a youtube.com/b".data).find?
        (fun w => isVideoWord w || containsL w spMarker) =
      some "spotify.com/track/a".data ∧
    containsL "spotify.com/track/a".data spMarker = true ∧
    isVideoWord "spotify.com/track/a".data = false ∧
    handle_message "spotify.com/track/a youtube.com/b".data =
      HandleResult.youtube "youtube.com/b".data := by
  decide

/-- C5 amended: a message containing a video-host substring anywhere
dispatches on its first video-host token, even when a catalog-track
token precedes it; only a message with no video-host substring
dispatches on its first catalog-track token; a message with neither
gets the usage hint — and in the first two cases the word scan always
finds a token (the handler never falls through silently). -/
theorem C5_first_token_dispatch (text : List Char) :
    ((containsL text ytMarker1 || containsL text ytMarker2) = true →
      ∃ w, (wordsOf text).find? isVideoWord = some w ∧
        handle_message text = HandleResult.youtube w ∧ isVideoWord w = true) ∧
    ((containsL text ytMarker1 || containsL text ytMarker2) = false →
      containsL text spMarker = true →
      ∃ w, (wordsOf text).find? (fun w2 => containsL w2 spMarker) = some w ∧
        handle_message text = HandleResult.spotify w ∧ containsL w spMarker = true) ∧
    ((containsL text ytMarker1 || containsL text ytMarker2) = false →
      containsL text spMarker = false → handle_message text = HandleResult.usageHint) := by
  refine ⟨?_, ?_, ?_⟩
  · intro h
    have hex : ∃ w, w ∈ wordsOf text ∧ isVideoWord w = true := by
      have h3 := h
      simp only [Bool.or_eq_true] at h3
      rcases h3 with h1 | h1
      · obtain ⟨w, hw, hcw⟩ := contains_word text ytMarker1 (by decide) (by decide) h1
        exact ⟨w, hw, by simp [isVideoWord, hcw]⟩
      · obtain ⟨w, hw, hcw⟩ := contains_word text ytMarker2 (by decide) (by decide) h1
        exact ⟨w, hw, by simp [isVideoWord, hcw]⟩
    have hsome : ((wordsOf text).find? isVideoWord).isSome := List.find?_isSome.mpr hex
    obtain ⟨w, hfind⟩ := Option.isSome_iff_exists.mp hsome
    refine ⟨w, hfind, ?_, List.find?_some hfind⟩
    simp [handle_message, h, hfind]
  · intro h hsp
    obtain ⟨w, hw, hcw⟩ := contains_word text spMarker (by decide) (by decide) hsp
    have hsome : ((wordsOf text).find? (fun w2 => containsL w2 spMarker)).isSome :=
      List.find?_isSome.mpr ⟨w, hw, hcw⟩
    obtain ⟨w2, hfind⟩ := Option.isSome_iff_exists.mp hsome
    refine ⟨w2, hfind, ?_, by simpa using List.find?_some hfind⟩
    simp [handle_message, h, hsp, hfind]
  · intro h1 h2
    simp [handle_message, h1, h2]

/-- Witness for the amended C5 on concrete messages. -/
theorem C5_first_token_dispatch_witness :
    (wordsOf "hello youtu.be/x".data).find? isVideoWord = some "youtu.be/x".data ∧
    handle_message "hello youtu.be/x".data = HandleResult.youtube "youtu.be/x".data ∧
    isVideoWord "youtu.be/x".data = true ∧
    handle_message "hello world".data = HandleResult.usageHint := by
  obtain ⟨w, h1, h2, h3⟩ := (C5_first_token_dispatch "hello youtu.be/x".data).1 (by decide)
  have hw : w = "youtu.be/x".data := by
    rw [show (wordsOf "hello youtu.be/x".data).find? isVideoWord =
      some "youtu.be/x".data from by decide] at h1
    exact (Option.some.inj h1).symm
  subst hw
  exact ⟨h1, h2, h3,
    (C5_first_token_dispatch "hello world".data).2.2 (by decide) (by decide)⟩

/-! ### Lemmas for track-identifier extraction -/

theorem track_no_early (base rest2 : List Char)
    (h1 : containsL base trackMarker = false)
    (h2 : List.isSuffixOf "/track".data base = false) :
    ∀ a1 a2, base = a1 ++ a2 → a2 ≠ [] →
      trackMarker.isPrefixOf (a2 ++ (trackMarker ++ rest2)) = false := by
  intro a1 a2 he hne
  by_contra hpb
  rw [Bool.not_eq_false] at hpb
  have hpre : trackMarker <+: a2 ++ (trackMarker ++ rest2) :=
    List.isPrefixOf_iff_prefix.mp hpb
  by_cases hlen : trackMarker.length ≤ a2.length
  · have hpa : trackMarker <+: a2 := prefix_of_append_left hpre hlen
    obtain ⟨r, hr⟩ := hpa
    have hct : containsL base trackMarker = true := by
      rw [he, ← hr]
      exact containsL_append_mid a1 trackMarker r (by decide)
    rw [hct] at h1
    exact absurd h1 (by simp)
  · push_neg at hlen
    obtain ⟨r, hr⟩ := hpre
    set k := a2.length with hk
    have hk1 : 1 ≤ k := by
      rw [hk]
      cases a2 with
      | nil => exact absurd rfl hne
      | cons _ _ => simp
    have hk7 : k < 7 := by
      have h7 : trackMarker.length = 7 := by decide
      omega
    have htake : trackMarker.take k = a2 := by
      have hc := congrArg (List.take k) hr
      rw [List.take_append_of_le_length (by omega : k ≤ trackMarker.length),
        List.take_append_of_le_length (Nat.le_refl _), hk, List.take_length] at hc
      exact hc
    have hdrop : trackMarker.drop k ++ r = trackMarker ++ rest2 := by
      have hc := congrArg (List.drop k) hr
      rw [List.drop_append_of_le_length (by omega : k ≤ trackMarker.length),
        List.drop_append_of_le_length (Nat.le_refl _), hk, List.drop_length,
        List.nil_append] at hc
      exact hc
    have hpre2 : trackMarker.drop k <+: trackMarker := by
      apply prefix_of_append_left (y := rest2) ⟨r, hdrop⟩
      rw [List.length_drop]
      omega
    interval_cases k
    · exact absurd (List.isPrefixOf_iff_prefix.mpr hpre2) (by decide)
    · exact absurd (List.isPrefixOf_iff_prefix.mpr hpre2) (by decide)
    · exact absurd (List.isPrefixOf_iff_prefix.mpr hpre2) (by decide)
    · exact absurd (List.isPrefixOf_iff_prefix.mpr hpre2) (by decide)
    · exact absurd (List.isPrefixOf_iff_prefix.mpr hpre2) (by decide)
    · have ha2 : a2 = "/track".data := by rw [← htake]; decide
      have hsuf : List.isSuffixOf "/track".data base = true := by
        rw [he, ha2]
        exact List.isSuffixOf_iff_suffix.mpr (List.suffix_append _ _)
      rw [hsuf] at h2
      exact absurd h2 (by simp)

theorem qmark_no_early (idl rest2 : List Char) (h4 : containsL idl qMark = false) :
    ∀ a1 a2, idl = a1 ++ a2 → a2 ≠ [] →
      qMark.isPrefixOf (a2 ++ (qMark ++ rest2)) = false := by
  intro a1 a2 he hne
  by_contra hpb
  rw [Bool.not_eq_false] at hpb
  have hpre : qMark <+: a2 ++ (qMark ++ rest2) := List.isPrefixOf_iff_prefix.mp hpb
  have hlen : qMark.length ≤ a2.length := by
    have hg1 : 1 ≤ a2.length := by
      cases a2 with
      | nil => exact absurd rfl hne
      | cons _ _ => simp
    have hg2 : qMark.length = 1 := by decide
    omega
  have hpa : qMark <+: a2 := prefix_of_append_left hpre hlen
  obtain ⟨r, hr⟩ := hpa
  have hct : containsL idl qMark = true := by
    rw [he, ← hr]
    exact containsL_append_mid a1 qMark r (by decide)
  rw [hct] at h4
  exact absurd h4 (by simp)

/-- When a second occurrence of the track marker exists after the
first (necessarily inside the query suffix, since the marker contains
no question mark and the identifier contains no marker), the segment
before it still starts with the identifier followed by the question
mark. -/
theorem pre2_shape (idl suffix pre2 post2 : List Char)
    (h3 : containsL idl trackMarker = false)
    (hs : splitFirst trackMarker (idl ++ (qMark ++ suffix)) = some (pre2, post2)) :
    ∃ s2, pre2 = idl ++ (qMark ++ s2) := by
  have heq : idl ++ (qMark ++ suffix) = pre2 ++ (trackMarker ++ post2) :=
    splitFirst_sound trackMarker _ pre2 post2 hs
  have hlen : idl.length + 1 ≤ pre2.length := by
    by_contra hcon
    push_neg at hcon
    have hk : pre2.length ≤ idl.length := by omega
    have hdrop : idl.drop pre2.length ++ (qMark ++ suffix) = trackMarker ++ post2 := by
      have hc := congrArg (List.drop pre2.length) heq.symm
      rw [List.drop_append_of_le_length hk,
        List.drop_append_of_le_length (Nat.le_refl _), List.drop_length,
        List.nil_append] at hc
      exact hc.symm
    by_cases hm : 7 ≤ idl.length - pre2.length
    · have hpre : trackMarker <+: idl.drop pre2.length := by
        apply prefix_of_append_left (y := qMark ++ suffix) ⟨post2, hdrop.symm⟩
        rw [show trackMarker.length = 7 from by decide, List.length_drop]
        omega
      obtain ⟨r, hr⟩ := hpre
      have hct : containsL idl trackMarker = true := by
        have hidl : idl = idl.take pre2.length ++ (trackMarker ++ r) := by
          rw [hr, List.take_append_drop]
        rw [hidl]
        exact containsL_append_mid _ _ _ (by decide)
      rw [hct] at h3
      exact absurd h3 (by simp)
    · push_neg at hm
      have hmlen : (idl.drop pre2.length).length = idl.length - pre2.length :=
        List.length_drop _ _
      have hc := congrArg (List.drop (idl.drop pre2.length).length) hdrop
      rw [List.drop_left] at hc
      rw [hmlen] at hc
      rw [List.drop_append_of_le_length
        (by rw [show trackMarker.length = 7 from by decide]; omega)] at hc
      cases hdm : trackMarker.drop (idl.length - pre2.length) with
      | nil =>
        have hlendm := congrArg List.length hdm
        rw [List.length_drop, show trackMarker.length = 7 from by decide] at hlendm
        simp at hlendm
        omega
      | cons c tl =>
        rw [hdm] at hc
        have hq : ('?' :: suffix : List Char) = c :: (tl ++ post2) := by
          simpa [qMark] using hc
        have hcq : c = '?' := (List.cons.inj hq).1.symm
        have hcmem : c ∈ trackMarker := by
          have hmem : c ∈ trackMarker.drop (idl.length - pre2.length) := by
            rw [hdm]; exact List.mem_cons_self _ _
          exact List.mem_of_mem_drop hmem
        rw [hcq] at hcmem
        exact absurd hcmem (by decide)
  refine ⟨suffix.take (pre2.length - idl.length - 1), ?_⟩
  have hp : pre2 = (idl ++ (qMark ++ suffix)).take pre2.length := by
    rw [heq, List.take_append_of_le_length (Nat.le_refl _), List.take_length]
  rw [hp]
  rw [show pre2.length = idl.length + ((pre2.length - idl.length - 1) + 1) from by omega]
  rw [List.take_append]
  have hqs : (qMark ++ suffix).take ((pre2.length - idl.length - 1) + 1) =
      '?' :: suffix.take (pre2.length - idl.length - 1) := by
    rw [show (qMark ++ suffix) = '?' :: suffix from by simp [qMark]]
    rw [List.take_succ_cons]
  rw [hqs]
  simp [qMark]

/-- C7 counterexample: with base = "x/track" (which does not contain
"/track/"), id = "ID" and suffix = "extra", all stated preconditions
hold, yet extraction from base + "/track/" + id + "?" + suffix returns
"track/ID", not "ID" — the first marker occurrence straddles the base
boundary.  Extraction is also not idempotent: applied to the bare
identifier "ID" it finds no marker and returns nothing. -/
theorem C7_counterexample :
    containsL "x/track".data trackMarker = false ∧
    containsL "ID".data trackMarker = false ∧
    containsL "ID".data qMark = false ∧
    extract_track_id ("x/track".data ++ (trackMarker ++ ("ID".data ++
      (qMark ++ "extra".data)))) = some "track/ID".data ∧
    some "track/ID".data ≠ some "ID".data ∧
    extract_track_id "ID".data = none := by
  decide

/-- C7 amended: extraction from base + "/track/" + id + "?" + suffix
returns exactly id under the additional requirement that base does not
end with "/track" (otherwise the marker occurrence can straddle the
boundary); and extraction is not idempotent: applied to any string
without the track marker — in particular to an extracted identifier —
it fails the marker guard and returns no identifier. -/
theorem C7_track_id_extraction (base idl suffix : List Char)
    (h1 : containsL base trackMarker = false)
    (h2 : List.isSuffixOf "/track".data base = false)
    (h3 : containsL idl trackMarker = false)
    (h4 : containsL idl qMark = false) :
    extract_track_id (base ++ (trackMarker ++ (idl ++ (qMark ++ suffix)))) = some idl ∧
    (∀ l, containsL l trackMarker = false → extract_track_id l = none) := by
  constructor
  · have step1 : splitFirst trackMarker (base ++ (trackMarker ++ (idl ++ (qMark ++ suffix)))) =
        some (base, idl ++ (qMark ++ suffix)) :=
      splitFirst_first trackMarker (idl ++ (qMark ++ suffix)) (by decide) base
        (track_no_early base (idl ++ (qMark ++ suffix)) h1 h2)
    unfold extract_track_id
    rw [step1]
    cases hs2 : splitFirst trackMarker (idl ++ (qMark ++ suffix)) with
    | none =>
      have step3 : splitFirst qMark (idl ++ (qMark ++ suffix)) = some (idl, suffix) :=
        splitFirst_first qMark suffix (by decide) idl (qmark_no_early idl suffix h4)
      simp only [hs2, step3]
    | some pr =>
      obtain ⟨pre2, post2⟩ := pr
      obtain ⟨s2, hps⟩ := pre2_shape idl suffix pre2 post2 h3 hs2
      have step3 : splitFirst qMark pre2 = some (idl, s2) := by
        rw [hps]
        exact splitFirst_first qMark s2 (by decide) idl (qmark_no_early idl s2 h4)
      simp only [hs2, step3]
  · intro l hl
    unfold extract_track_id
    have hn : splitFirst trackMarker l = none := by
      unfold containsL at hl
      cases hsp : splitFirst trackMarker l with
      | none => rfl
      | some pr => rw [hsp] at hl; simp at hl
    rw [hn]

/-- Witness for the amended C7 on a concrete catalog URL. -/
theorem C7_track_id_extraction_witness :
    extract_track_id ("https://open.spotify.com".data ++ (trackMarker ++
      ("XYZ".data ++ (qMark ++ "si=1".data)))) = some "XYZ".data ∧
    extract_track_id "XYZ".data = none :=
  ⟨(C7_track_id_extraction "https://open.spotify.com".data "XYZ".data "si=1".data
      (by decide) (by decide) (by decide) (by decide)).1,
   (C7_track_id_extraction "https://open.spotify.com".data "XYZ".data "si=1".data
      (by decide) (by decide) (by decide) (by decide)).2 "XYZ".data (by decide)⟩
